import Mathlib

/-!
Shallow embedding of the front-end application in `src/src/App.tsx`
(a single-page 2D-to-3D converter UI).

The React component state (the `useState` hooks of `App`) is modelled as an
explicit `AppState` record.  Each event handler of the source becomes a pure
Lean function from the pre-state (plus the outcome of the awaited HTTP
round-trips, supplied as an explicit parameter) to the post-state, together
with a record of the network effects it issued: the multipart payload of the
conversion POST, whether a mutation request was sent, and how many times the
gallery refresh `fetchModels()` was invoked.

JavaScript string truthiness (the empty string is falsy) and `undefined`/`null` fields
are modelled with `Option String` / emptiness tests, exactly following the
conditions in the source.
-/

/-- An uploaded image file; only its identity matters to the state logic. -/
structure ImageFile where
  fileName : String
deriving DecidableEq

/-- `interface ViewImages` in App.tsx: the four optional view slots. -/
structure ViewImages where
  front : Option ImageFile
  back : Option ImageFile
  left : Option ImageFile
  right : Option ImageFile
deriving DecidableEq

/-- `interface SavedModel` in App.tsx. -/
structure SavedModel where
  id : Int
  task_id : String
  name : String
  description : Option String
  model_url : String
  thumbnail_url : Option String
  view_config : Option (List (String × String))
  created_at : String
deriving DecidableEq

/-- `interface ConversionResult` in App.tsx. -/
structure ConversionResult where
  status : String
  task_id : String
  model_id : Option Int
  model_url : String
  thumbnail_url : Option String
deriving DecidableEq

/-- The two values of `activeTab`. -/
inductive Tab where
  | create
  | gallery
deriving DecidableEq

/-- The `useState` hooks of the `App` component, as one record. -/
structure AppState where
  activeTab : Tab
  viewImages : ViewImages
  modelName : String
  isConverting : Bool
  conversionResult : Option ConversionResult
  error : Option String
  progress : String
  savedModels : List SavedModel
  selectedModel : Option SavedModel
  editingModel : Option Int
  editName : String
  editDescription : String
deriving DecidableEq

/-- The initial values of the `useState` hooks. -/
def initialState : AppState where
  activeTab := Tab.create
  viewImages := ⟨none, none, none, none⟩
  modelName := ""
  isConverting := false
  conversionResult := none
  error := none
  progress := ""
  savedModels := []
  selectedModel := none
  editingModel := none
  editName := ""
  editDescription := ""

/-- An entry appended to the `FormData` payload: a file part or a string part. -/
inductive FormValue where
  | file (f : ImageFile)
  | str (s : String)
deriving DecidableEq

/-- A multipart payload: ordered field list, as built by `formData.append`. -/
abbrev FormData := List (String × FormValue)

/-- Is a character left unescaped by JavaScript `encodeURIComponent`
(letters, digits, hyphen, underscore, dot, exclamation mark, tilde, asterisk,
single quote and parentheses)? -/
def isUnescapedURIChar (c : Char) : Bool :=
  c.isAlphanum || c = Char.ofNat 45 || c = Char.ofNat 95 || c = Char.ofNat 46 ||
  c = Char.ofNat 33 || c = Char.ofNat 126 || c = Char.ofNat 42 ||
  c = Char.ofNat 39 || c = Char.ofNat 40 || c = Char.ofNat 41

/-- Upper-case hexadecimal digit for a value below 16. -/
def hexDigitUpper (n : Nat) : Char :=
  if n < 10 then Char.ofNat (48 + n) else Char.ofNat (55 + n)

/-- Percent-encoding of one byte, `%XY` with upper-case hex. -/
def percentEncodeByte (b : UInt8) : List Char :=
  [Char.ofNat 37, hexDigitUpper (b.toNat / 16), hexDigitUpper (b.toNat % 16)]

/-- Encoding of one character: kept if unescaped, else each UTF-8 byte
percent-encoded. -/
def encodeURIComponentChar (c : Char) : List Char :=
  if isUnescapedURIChar c then [c]
  else ((String.singleton c).toUTF8.toList.map percentEncodeByte).flatten

/-- JavaScript `encodeURIComponent`. -/
def encodeURIComponent (s : String) : String :=
  String.mk ((s.data.map encodeURIComponentChar).flatten)

/-- JavaScript `s.startsWith(pre)`, via the character lists (the stock
`String.startsWith` does not reduce under kernel evaluation). -/
def strStartsWith (s pre : String) : Bool :=
  pre.data.isPrefixOf s.data

/-- `getProxyUrl` in App.tsx:
`if (!url) return null; return url.startsWith("http") ? API_BASE + "/api/proxy-glb?url=" + encodeURIComponent(url) : url`.
`apiBase` is the environment-supplied `API_BASE`. -/
def getProxyUrl (apiBase url : String) : Option String :=
  if url = "" then none
  else if strStartsWith url "http" then
    some (apiBase ++ "/api/proxy-glb?url=" ++ encodeURIComponent url)
  else some url

/-- What the selected-model branch of the `displayModelUrl` conditional chain
yields: `selectedModel?.model_url ? getProxyUrl(selectedModel.model_url) : null`. -/
def selectedDisplay (apiBase : String) (sel : Option SavedModel) : Option String :=
  match sel with
  | some m => if m.model_url = "" then none else getProxyUrl apiBase m.model_url
  | none => none

/-- `displayModelUrl` in App.tsx:
`conversionResult?.model_url ? getProxyUrl(conversionResult.model_url) : (selectedModel?.model_url ? getProxyUrl(selectedModel.model_url) : null)`. -/
def displayModelUrl (apiBase : String) (s : AppState) : Option String :=
  match s.conversionResult with
  | some r =>
      if r.model_url = "" then selectedDisplay apiBase s.selectedModel
      else getProxyUrl apiBase r.model_url
  | none => selectedDisplay apiBase s.selectedModel

/-- `clearAllViews` in App.tsx: resets the four slots, the model name, the
conversion result and the error; touches nothing else and performs no I/O. -/
def clearAllViews (s : AppState) : AppState :=
  { s with
    viewImages := ⟨none, none, none, none⟩
    modelName := ""
    conversionResult := none
    error := none }

/-- Outcome of `GET /api/models` as observed by `fetchModels`:
either some awaited step threw (network failure or JSON parse failure), or the
body parsed to an object whose optional `models` field is given (`none` for
absent or `null`).  `ok` records the HTTP status class; the source never
inspects it on this path. -/
inductive ListResponse where
  | thrown
  | parsed (ok : Bool) (models : Option (List SavedModel))
deriving DecidableEq

/-- `fetchModels` in App.tsx: on a parsed body sets
`savedModels := data.models || []` with no status check; on a thrown request or
parse, logs and leaves the state unchanged. -/
def fetchModels (s : AppState) (resp : ListResponse) : AppState :=
  match resp with
  | ListResponse.thrown => s
  | ListResponse.parsed _ models => { s with savedModels := models.getD [] }

/-- Outcome of the convert POST as observed inside the `try` of
`handleConvert`:
* `netError msg`: some awaited step threw; `msg = some m` when the thrown
  value is an `Error` with message `m`, `none` otherwise;
* `httpError detail`: `response.ok` is false and the body parsed, with
  optional `detail` field (`none` for absent or `null`);
* `success r`: `response.ok` is true and the body parsed to `r`. -/
inductive ConvertResponse where
  | netError (msg : Option String)
  | httpError (detail : Option String)
  | success (r : ConversionResult)
deriving DecidableEq

/-- JavaScript `a || b` on an optional string: `b` when `a` is absent, `null`
or the empty string. -/
def jsOrElse (a : Option String) (b : String) : String :=
  match a with
  | some s => if s = "" then b else s
  | none => b

/-- The multipart payload assembled in `handleConvert`: `front` always (the
guard has established it), `back`/`left`/`right` when non-null, `name` when
the model name string is truthy. -/
def buildFormData (front : ImageFile) (v : ViewImages) (name : String) : FormData :=
  [("front", FormValue.file front)] ++
  (match v.back with | some f => [("back", FormValue.file f)] | none => []) ++
  (match v.left with | some f => [("left", FormValue.file f)] | none => []) ++
  (match v.right with | some f => [("right", FormValue.file f)] | none => []) ++
  (if name = "" then [] else [("name", FormValue.str name)])

/-- `[viewImages.front, viewImages.back, viewImages.left, viewImages.right].filter(Boolean).length`. -/
def viewCount (v : ViewImages) : Nat :=
  ([v.front, v.back, v.left, v.right].filter Option.isSome).length

/-- Result of one `handleConvert` invocation: the resulting state, the
multipart payload of the POST that was issued (`none` when validation blocked
the request), and the number of `fetchModels()` calls triggered. -/
structure ConvertOutcome where
  state : AppState
  request : Option FormData
  refreshCount : Nat
deriving DecidableEq

/-- `handleConvert` in App.tsx.  The early validation return precedes the
`try`, so on a missing front view only `error` is set.  Otherwise the
handler sets the converting flag and progress text, issues the POST, and on
`response.ok` stores the result, clears progress and fires one
`fetchModels()`; on a non-ok response it throws
`new Error(errorData.detail || "Conversion failed")`, and the `catch` sets
`error` (the thrown message, or the fallback for a non-`Error` value) and
clears progress; the `finally` clears the converting flag. -/
def handleConvert (s : AppState) (resp : ConvertResponse) : ConvertOutcome :=
  match s.viewImages.front with
  | none =>
      { state := { s with error := some "Front view image is required" }
        request := none
        refreshCount := 0 }
  | some front =>
      let fd := buildFormData front s.viewImages s.modelName
      let progressText :=
        "Processing " ++ toString (viewCount s.viewImages) ++
        " view(s) with Tripo3D (30-90 seconds)..."
      let s2 : AppState :=
        { s with isConverting := true, error := none, progress := progressText }
      match resp with
      | ConvertResponse.success r =>
          { state := { s2 with
              conversionResult := some r
              progress := ""
              isConverting := false }
            request := some fd
            refreshCount := 1 }
      | ConvertResponse.httpError detail =>
          { state := { s2 with
              error := some (jsOrElse detail "Conversion failed")
              progress := ""
              isConverting := false }
            request := some fd
            refreshCount := 0 }
      | ConvertResponse.netError msg =>
          { state := { s2 with
              error := some (msg.getD "An error occurred")
              progress := ""
              isConverting := false }
            request := some fd
            refreshCount := 0 }

/-- Outcome of a single awaited `fetch` for the mutation handlers: the
promise resolved (with any HTTP status; neither handler checks it) or it
rejected. -/
inductive FetchOutcome where
  | resolved
  | thrown
deriving DecidableEq

/-- Result of a mutation handler: resulting state, whether the HTTP request
was issued, and the number of `fetchModels()` calls triggered. -/
structure MutationOutcome where
  state : AppState
  requestSent : Bool
  refreshCount : Nat
deriving DecidableEq

/-- `handleDeleteModel` in App.tsx: returns immediately unless confirmed;
then issues the DELETE, and when it resolves fires `fetchModels()` and clears
the selection when the deleted id matches `selectedModel?.id`; a rejected
fetch is caught and logged, with no refresh and no state change. -/
def handleDeleteModel (s : AppState) (confirmed : Bool) (modelId : Int)
    (o : FetchOutcome) : MutationOutcome :=
  if !confirmed then
    { state := s, requestSent := false, refreshCount := 0 }
  else
    match o with
    | FetchOutcome.thrown =>
        { state := s, requestSent := true, refreshCount := 0 }
    | FetchOutcome.resolved =>
        let hit : Bool := match s.selectedModel with
          | some m => m.id == modelId
          | none => false
        { state := if hit then { s with selectedModel := none } else s
          requestSent := true
          refreshCount := 1 }

/-- `handleUpdateModel` in App.tsx: issues the PUT; when it resolves, exits
edit mode (`setEditingModel(null)`) and fires `fetchModels()`; a rejected
fetch is caught and logged, leaving edit mode and everything else unchanged
with no refresh. -/
def handleUpdateModel (s : AppState) (modelId : Int)
    (o : FetchOutcome) : MutationOutcome :=
  match o with
  | FetchOutcome.thrown =>
      { state := s, requestSent := true, refreshCount := 0 }
  | FetchOutcome.resolved =>
      { state := { s with editingModel := none }
        requestSent := true
        refreshCount := 1 }

/-- Keys of the file parts of a multipart payload, in order. -/
def fileKeys (fd : FormData) : List String :=
  (fd.filter fun p => match p.2 with
    | FormValue.file _ => true
    | FormValue.str _ => false).map Prod.fst

/-- Keys of the string parts of a multipart payload, in order. -/
def strKeys (fd : FormData) : List String :=
  (fd.filter fun p => match p.2 with
    | FormValue.file _ => false
    | FormValue.str _ => true).map Prod.fst

/-! Concrete fixtures used by counterexamples and witnesses. -/

/-- A concrete uploaded image. -/
def frontImage : ImageFile := ⟨"front.png"⟩

/-- A concrete state whose only non-empty slot is the front view. -/
def frontOnlyState : AppState :=
  { initialState with viewImages := ⟨some frontImage, none, none, none⟩ }

/-- A concrete saved model. -/
def sampleModel : SavedModel :=
  ⟨1, "task-1", "Chair", some "a chair", "http://cdn.example/x.glb", none, none,
   "2024-01-01T00:00:00Z"⟩

/-- A concrete conversion result. -/
def sampleResult : ConversionResult :=
  ⟨"success", "task-2", some 7, "http://cdn.example/model.glb", none⟩

/-! Helper lemmas. -/

/-- With a non-empty front slot, `handleConvert` issues the POST whose payload
is `buildFormData`, whatever the response turns out to be. -/
theorem handleConvert_request (s : AppState) (f : ImageFile) (resp : ConvertResponse)
    (h : s.viewImages.front = some f) :
    (handleConvert s resp).request = some (buildFormData f s.viewImages s.modelName) := by
  unfold handleConvert
  rw [h]
  cases resp <;> rfl

/-- The file parts of the payload are exactly the non-empty slots, in the
fixed order front, back, left, right. -/
theorem buildFormData_fileKeys (front : ImageFile) (v : ViewImages) (name : String) :
    fileKeys (buildFormData front v name) =
      "front" ::
        ((match v.back with | some _ => ["back"] | none => []) ++
         (match v.left with | some _ => ["left"] | none => []) ++
         (match v.right with | some _ => ["right"] | none => [])) := by
  obtain ⟨fr, bk, lf, rt⟩ := v
  cases bk <;> cases lf <;> cases rt <;>
    by_cases hn : name = "" <;>
      simp [buildFormData, fileKeys, hn]

/-- The string parts of the payload are exactly the `name` field, and only
when the model name is non-empty. -/
theorem buildFormData_strKeys (front : ImageFile) (v : ViewImages) (name : String) :
    strKeys (buildFormData front v name) =
      (if name = "" then [] else ["name"]) := by
  obtain ⟨fr, bk, lf, rt⟩ := v
  cases bk <;> cases lf <;> cases rt <;>
    by_cases hn : name = "" <;>
      simp [buildFormData, strKeys, hn]

/-- When the front slot is non-empty, the number of file parts equals the
number of non-empty slots. -/
theorem buildFormData_fileCount (front : ImageFile) (v : ViewImages) (name : String)
    (h : v.front = some front) :
    (fileKeys (buildFormData front v name)).length = viewCount v := by
  rw [buildFormData_fileKeys]
  obtain ⟨fr, bk, lf, rt⟩ := v
  simp only at h
  subst h
  cases bk <;> cases lf <;> cases rt <;> simp [viewCount]

/-! Claim C1. -/

/-- Claim C1, counterexample: with the front slot empty, no request is issued,
but the surfaced error text is "Front view image is required", not the
text "front view required" stated by the claim. -/
theorem handleConvert_validation_text_cex :
    (handleConvert initialState (ConvertResponse.netError none)).request = none ∧
    (handleConvert initialState (ConvertResponse.netError none)).state.error =
      some "Front view image is required" ∧
    (handleConvert initialState (ConvertResponse.netError none)).state.error ≠
      some "front view required" := by
  refine ⟨rfl, rfl, ?_⟩
  decide

/-- Claim C1 (amended): for every submission with an empty front slot,
`handleConvert` issues no network request, triggers no gallery refresh, and
its only state change is setting the error to the validation message
"Front view image is required"; the view slots, conversion result, progress
text and converting flag are untouched. -/
theorem handleConvert_validation (s : AppState) (resp : ConvertResponse)
    (h : s.viewImages.front = none) :
    (handleConvert s resp).request = none ∧
    (handleConvert s resp).refreshCount = 0 ∧
    (handleConvert s resp).state =
      { s with error := some "Front view image is required" } := by
  unfold handleConvert
  rw [h]
  exact ⟨rfl, rfl, rfl⟩

/-- Claim C1, witness: the validation theorem applied at the initial state. -/
theorem handleConvert_validation_witness :
    (handleConvert initialState (ConvertResponse.netError none)).request = none ∧
    (handleConvert initialState (ConvertResponse.netError none)).refreshCount = 0 ∧
    (handleConvert initialState (ConvertResponse.netError none)).state =
      { initialState with error := some "Front view image is required" } :=
  handleConvert_validation initialState (ConvertResponse.netError none) rfl

/-! Claim C2. -/

/-- Claim C2: for every submission with a non-empty front slot, the multipart
payload is issued and contains exactly the non-empty view slots as file
fields (front always, back/left/right each present iff that slot is
non-empty), a `name` string field iff the optional name is non-empty, and
nothing else; the number of file fields equals the number of non-empty
slots (one with only front set, four with all slots set). -/
theorem handleConvert_payload (s : AppState) (f : ImageFile) (resp : ConvertResponse)
    (h : s.viewImages.front = some f) :
    (handleConvert s resp).request = some (buildFormData f s.viewImages s.modelName) ∧
    fileKeys (buildFormData f s.viewImages s.modelName) =
      "front" ::
        ((match s.viewImages.back with | some _ => ["back"] | none => []) ++
         (match s.viewImages.left with | some _ => ["left"] | none => []) ++
         (match s.viewImages.right with | some _ => ["right"] | none => [])) ∧
    strKeys (buildFormData f s.viewImages s.modelName) =
      (if s.modelName = "" then [] else ["name"]) ∧
    (fileKeys (buildFormData f s.viewImages s.modelName)).length =
      viewCount s.viewImages :=
  ⟨handleConvert_request s f resp h,
   buildFormData_fileKeys f s.viewImages s.modelName,
   buildFormData_strKeys f s.viewImages s.modelName,
   buildFormData_fileCount f s.viewImages s.modelName h⟩

/-- A concrete state with all four slots and the optional name set. -/
def allViewsState : AppState :=
  { initialState with
    viewImages := ⟨some frontImage, some ⟨"back.png"⟩, some ⟨"left.png"⟩, some ⟨"right.png"⟩⟩
    modelName := "My 3D Model" }

/-- Claim C2, witness: with all four slots and a name set, the payload has the
four file fields and the name field; with only the front slot and no name,
it has exactly one file field and no string field. -/
theorem handleConvert_payload_witness :
    fileKeys (buildFormData frontImage allViewsState.viewImages allViewsState.modelName) =
      ["front", "back", "left", "right"] ∧
    strKeys (buildFormData frontImage allViewsState.viewImages allViewsState.modelName) =
      ["name"] ∧
    fileKeys (buildFormData frontImage frontOnlyState.viewImages frontOnlyState.modelName) =
      ["front"] ∧
    strKeys (buildFormData frontImage frontOnlyState.viewImages frontOnlyState.modelName) =
      [] ∧
    (handleConvert frontOnlyState (ConvertResponse.netError none)).request =
      some (buildFormData frontImage frontOnlyState.viewImages frontOnlyState.modelName) :=
  ⟨(handleConvert_payload allViewsState frontImage (ConvertResponse.netError none) rfl).2.1,
   (handleConvert_payload allViewsState frontImage (ConvertResponse.netError none) rfl).2.2.1,
   (handleConvert_payload frontOnlyState frontImage (ConvertResponse.netError none) rfl).2.1,
   (handleConvert_payload frontOnlyState frontImage (ConvertResponse.netError none) rfl).2.2.1,
   (handleConvert_payload frontOnlyState frontImage (ConvertResponse.netError none) rfl).1⟩

/-! Claim C3. -/

/-- Claim C3, counterexample: on a non-2xx response whose body carries a
present but empty `detail` field, the surfaced message is the fallback
"Conversion failed", not the (present) `detail` value. -/
theorem handleConvert_detail_empty_cex :
    (handleConvert frontOnlyState (ConvertResponse.httpError (some ""))).state.error =
      some "Conversion failed" ∧
    (handleConvert frontOnlyState (ConvertResponse.httpError (some ""))).state.error ≠
      some "" := by
  refine ⟨rfl, ?_⟩
  decide

/-- Claim C3 (amended): for every non-2xx convert response with a parsed body,
the surfaced error message equals the `detail` field of the body when it is
present and non-empty, else the fixed fallback "Conversion failed"; the
progress text is cleared and no gallery refresh is triggered. -/
theorem handleConvert_httpError (s : AppState) (f : ImageFile) (detail : Option String)
    (h : s.viewImages.front = some f) :
    (handleConvert s (ConvertResponse.httpError detail)).state.error =
      some (match detail with
            | some d => if d = "" then "Conversion failed" else d
            | none => "Conversion failed") ∧
    (handleConvert s (ConvertResponse.httpError detail)).state.progress = "" ∧
    (handleConvert s (ConvertResponse.httpError detail)).refreshCount = 0 := by
  unfold handleConvert
  rw [h]
  exact ⟨rfl, rfl, rfl⟩

/-- Claim C3, witness: an HTTP 500 with body detail "quota exceeded" surfaces
exactly "quota exceeded". -/
theorem handleConvert_httpError_witness :
    (handleConvert frontOnlyState (ConvertResponse.httpError (some "quota exceeded"))).state.error =
      some "quota exceeded" ∧
    (handleConvert frontOnlyState (ConvertResponse.httpError (some "quota exceeded"))).state.progress = "" ∧
    (handleConvert frontOnlyState (ConvertResponse.httpError (some "quota exceeded"))).refreshCount = 0 :=
  handleConvert_httpError frontOnlyState frontImage (some "quota exceeded") rfl

/-! Claim C4. -/

/-- Claim C4: `getProxyUrl` maps empty input to `none` (no displayable
address), is the identity on non-empty addresses that do not start with
"http", and maps every address starting with "http" to the same-origin
proxy form `API_BASE ++ "/api/proxy-glb?url=" ++ encodeURIComponent url`. -/
theorem getProxyUrl_spec (apiBase url : String) :
    (url = "" → getProxyUrl apiBase url = none) ∧
    (url ≠ "" → strStartsWith url "http" = false → getProxyUrl apiBase url = some url) ∧
    (strStartsWith url "http" = true →
      getProxyUrl apiBase url =
        some (apiBase ++ "/api/proxy-glb?url=" ++ encodeURIComponent url)) := by
  refine ⟨fun h => ?_, fun h1 h2 => ?_, fun h => ?_⟩
  · simp [getProxyUrl, h]
  · simp [getProxyUrl, h1, h2]
  · have hne : ¬url = "" := by
      intro he
      rw [he] at h
      exact absurd h (by decide)
    simp [getProxyUrl, hne, h]

/-- Claim C4, witness: a relative address is returned unchanged, the empty
address yields none, and a fully-qualified address is routed through the
proxy endpoint. -/
theorem getProxyUrl_spec_witness :
    getProxyUrl "" "model.glb" = some "model.glb" ∧
    getProxyUrl "" "" = none ∧
    getProxyUrl "" "http://a/x.glb" =
      some ("" ++ "/api/proxy-glb?url=" ++ encodeURIComponent "http://a/x.glb") :=
  ⟨(getProxyUrl_spec "" "model.glb").2.1 (by decide) (by decide),
   (getProxyUrl_spec "" "").1 rfl,
   (getProxyUrl_spec "" "http://a/x.glb").2.2 (by decide)⟩

/-! Claim C5. -/

/-- Modelled from the claim wording: the displayed 3D asset address is the
proxied address of the active conversion result when it is present with a
non-empty `model_url`, else the proxied address of the selected saved model
when one is selected with a non-empty `model_url`, else none. -/
def displayModelUrlSpec (apiBase : String) (s : AppState) : Option String :=
  match s.conversionResult with
  | some r =>
      if r.model_url ≠ "" then getProxyUrl apiBase r.model_url
      else
        match s.selectedModel with
        | some m => if m.model_url ≠ "" then getProxyUrl apiBase m.model_url else none
        | none => none
  | none =>
      match s.selectedModel with
      | some m => if m.model_url ≠ "" then getProxyUrl apiBase m.model_url else none
      | none => none

/-- Claim C5: for every application state (and every API base), the derived
`displayModelUrl` coincides with the specified derivation: the active
proxied asset of the conversion result when present with a non-empty `model_url`,
else the proxied asset of the selected model when selected with a non-empty
`model_url`, else none.  (`AppState` stores no display-address field; the
value exists only as this derivation.) -/
theorem displayModelUrl_derived (apiBase : String) (s : AppState) :
    displayModelUrl apiBase s = displayModelUrlSpec apiBase s := by
  unfold displayModelUrl displayModelUrlSpec selectedDisplay
  cases s.conversionResult with
  | none =>
      cases s.selectedModel with
      | none => rfl
      | some m => by_cases hm : m.model_url = "" <;> simp [hm]
  | some r =>
      by_cases hr : r.model_url = ""
      · cases s.selectedModel with
        | none => simp [hr]
        | some m => by_cases hm : m.model_url = "" <;> simp [hr, hm]
      · simp [hr]

/-! Claim C6. -/

/-- A concrete state with a non-empty model name and other live fields. -/
def clearAllState : AppState :=
  { initialState with
    modelName := "My Model"
    progress := "busy"
    activeTab := Tab.gallery
    savedModels := [sampleModel]
    selectedModel := some sampleModel
    editingModel := some 1
    editName := "draft"
    editDescription := "draft description" }

/-- Claim C6, counterexample: `clearAllViews` also resets the optional model
name, so state outside the claimed reset set (slots, conversion result,
error) does change: at a state whose model name is "My Model" the name
becomes empty. -/
theorem clearAllViews_modelName_cex :
    clearAllState.modelName = "My Model" ∧
    (clearAllViews clearAllState).modelName = "" ∧
    (clearAllViews clearAllState).modelName ≠ clearAllState.modelName := by
  refine ⟨rfl, rfl, ?_⟩
  decide

/-- Claim C6 (amended): for every state, `clearAllViews` resets the four view
slots, the optional model name, the conversion result and the error to their
empty states, and leaves the gallery snapshot, selected model, edit-mode
state (editing id and both drafts), active tab, progress text and converting
flag unchanged; it performs no I/O (it is a pure state replacement issuing
no request). -/
theorem clearAllViews_spec (s : AppState) :
    (clearAllViews s).viewImages = ⟨none, none, none, none⟩ ∧
    (clearAllViews s).modelName = "" ∧
    (clearAllViews s).conversionResult = none ∧
    (clearAllViews s).error = none ∧
    (clearAllViews s).savedModels = s.savedModels ∧
    (clearAllViews s).selectedModel = s.selectedModel ∧
    (clearAllViews s).editingModel = s.editingModel ∧
    (clearAllViews s).editName = s.editName ∧
    (clearAllViews s).editDescription = s.editDescription ∧
    (clearAllViews s).activeTab = s.activeTab ∧
    (clearAllViews s).progress = s.progress ∧
    (clearAllViews s).isConverting = s.isConverting :=
  ⟨rfl, rfl, rfl, rfl, rfl, rfl, rfl, rfl, rfl, rfl, rfl, rfl⟩

/-! Claim C7. -/

/-- Claim C7: for every successful conversion (front slot non-empty, 2xx
response parsed to a `ConversionResult`), exactly one gallery refresh is
triggered, the progress text is cleared, the result is stored and no error
is surfaced; and whatever the outcome of that refresh (including a thrown
request), the stored result and the absence of an error are unaffected. -/
theorem handleConvert_success (s : AppState) (f : ImageFile) (r : ConversionResult)
    (h : s.viewImages.front = some f) :
    (handleConvert s (ConvertResponse.success r)).refreshCount = 1 ∧
    (handleConvert s (ConvertResponse.success r)).state.progress = "" ∧
    (handleConvert s (ConvertResponse.success r)).state.conversionResult = some r ∧
    (handleConvert s (ConvertResponse.success r)).state.error = none ∧
    (∀ lr : ListResponse,
      (fetchModels (handleConvert s (ConvertResponse.success r)).state lr).conversionResult =
        some r ∧
      (fetchModels (handleConvert s (ConvertResponse.success r)).state lr).error = none) := by
  unfold handleConvert
  rw [h]
  refine ⟨rfl, rfl, rfl, rfl, fun lr => ?_⟩
  cases lr <;> exact ⟨rfl, rfl⟩

/-- Claim C7, witness: the success theorem at a concrete state and result,
with the subsequent refresh throwing. -/
theorem handleConvert_success_witness :
    (handleConvert frontOnlyState (ConvertResponse.success sampleResult)).refreshCount = 1 ∧
    (handleConvert frontOnlyState (ConvertResponse.success sampleResult)).state.progress = "" ∧
    (fetchModels (handleConvert frontOnlyState (ConvertResponse.success sampleResult)).state
        ListResponse.thrown).conversionResult = some sampleResult ∧
    (fetchModels (handleConvert frontOnlyState (ConvertResponse.success sampleResult)).state
        ListResponse.thrown).error = none := by
  have h := handleConvert_success frontOnlyState frontImage sampleResult rfl
  exact ⟨h.1, h.2.1, (h.2.2.2.2 ListResponse.thrown).1, (h.2.2.2.2 ListResponse.thrown).2⟩

/-! Claim C8. -/

/-- Claim C8: for every confirmed delete whose DELETE round-trip completes
(the promise resolves, whatever the HTTP status — the handler checks none),
exactly one gallery refresh is triggered, and the only state change is to
the selection: cleared when the deleted id equals the id of the selected model,
unchanged (including the no-selection case) for every other id. -/
theorem handleDeleteModel_spec (s : AppState) (modelId : Int) :
    (handleDeleteModel s true modelId FetchOutcome.resolved).requestSent = true ∧
    (handleDeleteModel s true modelId FetchOutcome.resolved).refreshCount = 1 ∧
    (handleDeleteModel s true modelId FetchOutcome.resolved).state =
      { s with selectedModel :=
          match s.selectedModel with
          | some m => if m.id = modelId then none else some m
          | none => none } := by
  refine ⟨rfl, rfl, ?_⟩
  unfold handleDeleteModel
  cases hsel : s.selectedModel with
  | none =>
      simp [hsel]
      rw [← hsel]
  | some m =>
      by_cases hid : m.id = modelId
      · simp [hsel, hid]
      · simp [hsel, hid]
        rw [← hsel]

/-! Claim C9. -/

/-- A concrete state in edit mode for model id 5. -/
def editingState : AppState :=
  { initialState with
    editingModel := some 5
    editName := "New Name"
    editDescription := "New description" }

/-- Claim C9, counterexample: when the PUT request is issued but rejects at
the network level, edit mode does not exit (the editing id is still set) and
no gallery refresh is triggered, contradicting "exited once the request is
issued, independent of success or failure" and "list() on any outcome". -/
theorem handleUpdateModel_thrown_cex :
    (handleUpdateModel editingState 5 FetchOutcome.thrown).requestSent = true ∧
    (handleUpdateModel editingState 5 FetchOutcome.thrown).state.editingModel = some 5 ∧
    (handleUpdateModel editingState 5 FetchOutcome.thrown).refreshCount = 0 := by
  refine ⟨rfl, rfl, rfl⟩

/-- Claim C9 (amended): for every update whose PUT round-trip completes (the
promise resolves, whatever the HTTP status — the handler checks none), edit
mode exits and exactly one gallery refresh is triggered, the rest of the
state unchanged; when the request rejects at the network level, the failure
is swallowed: the state (edit mode included) is unchanged and no refresh is
triggered. -/
theorem handleUpdateModel_spec (s : AppState) (modelId : Int) :
    (handleUpdateModel s modelId FetchOutcome.resolved).requestSent = true ∧
    (handleUpdateModel s modelId FetchOutcome.resolved).state = { s with editingModel := none } ∧
    (handleUpdateModel s modelId FetchOutcome.resolved).refreshCount = 1 ∧
    (handleUpdateModel s modelId FetchOutcome.thrown).requestSent = true ∧
    (handleUpdateModel s modelId FetchOutcome.thrown).state = s ∧
    (handleUpdateModel s modelId FetchOutcome.thrown).refreshCount = 0 :=
  ⟨rfl, rfl, rfl, rfl, rfl, rfl⟩

/-! Claim C10. -/

/-- Claim C10: for every `list()` round-trip that completes and parses, the
gallery snapshot is replaced by the `models` field of the body when present and
by the empty list otherwise, with no other state change and regardless of
the HTTP status (`ok` is ignored); when the request or the parse throws, the
whole state — the previous snapshot included — is preserved. -/
theorem fetchModels_spec (s : AppState) (ok : Bool) (models : Option (List SavedModel)) :
    fetchModels s (ListResponse.parsed ok models) =
      { s with savedModels := models.getD [] } ∧
    fetchModels s ListResponse.thrown = s :=
  ⟨rfl, rfl⟩
